import Mathlib

/-!
# Verification of the etl-avalanche task logic

Shallow embedding of the pure core of `src/task.ts`: the danger-level
text mapping, the forecast-normalization pipeline (`getForecastData`),
the geometry extraction inside `control`, the styling-table lookups, and
the per-region feature-assembly loop.

Modelling conventions:
* JSON documents are the inductive `Json`; numbers carry `Rat` (no
  arithmetic is ever performed on JSON numbers by the program, the values
  are passed through).
* A JavaScript timestamp is its epoch-millisecond value (`Int`);
  `Date#toISOString` is injective on that value, so equality of
  millisecond values models equality of the emitted strings.
* `JSON.parse` of the opaque geometry string is modelled by storing the
  parse result `Option Json` in `RegionInfo.geometry` (`none` = the parse
  threw, which the code catches).
* Network fetches are modelled as function parameters returning `Option`
  (`none` = fetch failure / non-2xx, which the code converts to `null`).
-/

namespace EtlAvalanche

/-- A JSON document (`JSON.parse` result). Object fields are in document
order; upstream documents are assumed to have distinct keys. -/
inductive Json where
  | null : Json
  | bool (b : Bool) : Json
  | num (q : Rat) : Json
  | str (s : String) : Json
  | arr (items : List Json) : Json
  | obj (fields : List (String × Json)) : Json

/-- JavaScript truthiness of a defined value: `null`, `false`, `0` and
`""` are falsy; every array and object (even empty) is truthy. -/
def jsTruthy : Json → Bool
  | .null => false
  | .bool b => b
  | .num q => q != 0
  | .str s => s != ""
  | .arr _ => true
  | .obj _ => true

/-- Property access `value.k`: a field of an object, `undefined` (here
`none`) on any other value. Access on `null` throws in JavaScript, but
every such access in `control` sits inside the `try`/`catch` whose catch
leaves the polygon absent, so `none` is the faithful net effect. -/
def getField : Json → String → Option Json
  | .obj fields, k => (fields.find? (fun kv => kv.1 == k)).map (fun kv => kv.2)
  | _, _ => none

/-- Index access `value[0]`: first element of an array, first character
of a non-empty string, `undefined` otherwise. -/
def jsIndex0 : Json → Option Json
  | .arr (x :: _) => some x
  | .str s => if s = "" then none else some (.str (String.mk [s.data.head!]))
  | _ => none

/-- `undefined`-propagating field access. -/
def optField (o : Option Json) (k : String) : Option Json :=
  o.bind (fun j => getField j k)

/-- `undefined`-propagating index access. -/
def optIndex0 (o : Option Json) : Option Json :=
  o.bind jsIndex0

/-- Truthiness of a possibly-`undefined` value. -/
def truthyOpt : Option Json → Bool
  | none => false
  | some j => jsTruthy j

/-- The strict equality `v === 'Polygon'`: true exactly when the value is
defined and is that string. -/
def tyIsPolygon : Option Json → Bool
  | some (.str s) => s == "Polygon"
  | _ => false

/-- Lines 268–280 of `src/task.ts`: navigate `layers[0].geometry` of the
parsed geometry document; if the whole chain is truthy, the geometry's
`type` is strictly the string `"Polygon"` and its `coordinates` field is
truthy, the coordinates are extracted; in every other case (including a
parse failure, `parsed = none`) no polygon is produced. -/
def extractPolygon (parsed : Option Json) : Option Json :=
  match parsed with
  | none => none
  | some geometryData =>
    let layers := getField geometryData "layers"
    let layers0 := optIndex0 layers
    let geom := optField layers0 "geometry"
    if truthyOpt layers && truthyOpt layers0 && truthyOpt geom then
      if tyIsPolygon (optField geom "type") && truthyOpt (optField geom "coordinates") then
        optField geom "coordinates"
      else none
    else none

/-- The value reached by `layers[0].geometry` (possibly `undefined`). -/
def navGeom (j : Json) : Option Json :=
  optField (optIndex0 (getField j "layers")) "geometry"

/-! ## String processing: the `importantInformation` cleanup

`forecast.importantInformation.replace(/<[^>]*>/g, '').trim()`.

The regex removes, for each `<`, everything up to and including the first
following `>`; a `<` with no subsequent `>` can start no match, and since
a match needs a `>`, nothing after it matches either. -/

/-- One pass of the global replace: `inTag` records whether we are inside
a `<...>` match being deleted. A `<` is only entered when a closing `>`
exists in the remainder, mirroring the fact that the regex `<[^>]*>`
cannot match without one. -/
def stripTagsAux : Bool → List Char → List Char
  | _, [] => []
  | false, c :: cs =>
    if c = '<' then
      if cs.contains '>' then stripTagsAux true cs else c :: cs
    else c :: stripTagsAux false cs
  | true, c :: cs =>
    if c = '>' then stripTagsAux false cs else stripTagsAux true cs

/-- `s.replace(/<[^>]*>/g, '')`. -/
def stripTags (s : String) : String :=
  String.mk (stripTagsAux false s.data)

/-- The characters removed by JavaScript `String#trim` (WhiteSpace and
LineTerminator code points). -/
def isJsWs (c : Char) : Bool :=
  c == ' ' || c == '\t' || c == '\n' || c == '\r' ||
  c == '\u000B' || c == '\u000C' || c == ' ' || c == '﻿' ||
  c == ' ' || c == ' ' || c == ' ' || c == ' ' ||
  c == ' ' || c == ' ' || c == ' ' || c == ' ' ||
  c == ' ' || c == ' ' || c == ' ' || c == ' ' ||
  c == ' ' || c == ' ' || c == ' ' || c == ' ' ||
  c == '　'

/-- `s.trim()`. -/
def jsTrim (s : String) : String :=
  String.mk (((s.data.dropWhile isJsWs).reverse.dropWhile isJsWs).reverse)

/-- Checker for "the text consists solely of `<...>` markup tags and
whitespace": the flag records being inside a tag, which must be closed. -/
def tagsWsAux : Bool → List Char → Bool
  | false, [] => true
  | true, [] => false
  | false, c :: cs =>
    if isJsWs c then tagsWsAux false cs
    else if c = '<' then tagsWsAux true cs
    else false
  | true, c :: cs =>
    if c = '>' then tagsWsAux false cs else tagsWsAux true cs

/-- A string made only of markup tags and whitespace. -/
def tagsWsOnly (s : String) : Bool :=
  tagsWsAux false s.data

/-! ## Styling tables and region catalog (lines 6–24) -/

/-- `AVALANCHE_ICONS`: property access on the icon table. -/
def avalancheIcons (level : Int) : Option String :=
  if level = 0 then some "bb4df0a6-ca8d-4ba8-bb9e-3deb97ff015e:NaturalHazards/NH.41B.Avalanche.DangerLevel0.Label.png"
  else if level = 1 then some "bb4df0a6-ca8d-4ba8-bb9e-3deb97ff015e:NaturalHazards/NH.42B.Avalanche.DangerLevel1.Label.png"
  else if level = 2 then some "bb4df0a6-ca8d-4ba8-bb9e-3deb97ff015e:NaturalHazards/NH.43B.Avalanche.DangerLevel2.Label.png"
  else if level = 3 then some "bb4df0a6-ca8d-4ba8-bb9e-3deb97ff015e:NaturalHazards/NH.44B.Avalanche.DangerLevel3.Label.png"
  else if level = 4 then some "bb4df0a6-ca8d-4ba8-bb9e-3deb97ff015e:NaturalHazards/NH.45B.Avalanche.DangerLevel4and5.Label.png"
  else if level = 5 then some "bb4df0a6-ca8d-4ba8-bb9e-3deb97ff015e:NaturalHazards/NH.45B.Avalanche.DangerLevel4and5.Label.png"
  else none

/-- `AVALANCHE_COLORS`: property access on the color table. -/
def avalancheColors (level : Int) : Option String :=
  if level = 5 then some "rgb(0, 0, 0)"
  else if level = 4 then some "rgb(239, 43, 47)"
  else if level = 3 then some "rgb(248, 151, 44)"
  else if level = 2 then some "rgb(255, 244, 31)"
  else if level = 1 then some "rgb(84, 187, 81)"
  else if level = 0 then some "rgb(128, 128, 128)"
  else none

/-- JavaScript `a || b` on a possibly-`undefined` string: the right
operand is taken when the left is `undefined` or falsy (empty). -/
def jsOrString (a b : Option String) : Option String :=
  match a with
  | some s => if s = "" then b else some s
  | none => b

/-- `AVALANCHE_COLORS[level] || AVALANCHE_COLORS[0]` (lines 282, 333). -/
def colorLookup (level : Int) : Option String :=
  jsOrString (avalancheColors level) (avalancheColors 0)

/-- `AVALANCHE_ICONS[level] || AVALANCHE_ICONS[0]` (line 333). -/
def iconLookup (level : Int) : Option String :=
  jsOrString (avalancheIcons level) (avalancheIcons 0)

/-- `VALID_REGIONS` (line 24). -/
def VALID_REGIONS : List Int := [1, 2, 4, 5, 6, 7, 8, 9, 10, 11, 12, 13, 15]

/-! ## Forecast normalization (`getForecastData`, lines 112–204) -/

/-- One altitude band of a raw forecast. -/
structure AltitudeDanger where
  rating : Int
  description : String
deriving DecidableEq

/-- One raw forecast entry from `GET /api/forecast`. `createdMs` is the
epoch-millisecond value of the `created` timestamp string
(`new Date(forecast.created).getTime()`); the claims treated here concern
entries whose timestamp parses. -/
structure RawForecast where
  regionId : Int
  altitudeDanger : List AltitudeDanger
  createdMs : Int
  validPeriod : String
  importantInformation : String
deriving DecidableEq

/-- The normalized record (`AvalancheData`); `startMs`/`expiresMs` are the
millisecond values behind the `start`/`expires` strings. -/
structure AvalancheData where
  location : String
  level : Int
  levelText : String
  description : String
  startMs : Int
  expiresMs : Int
  url : String
deriving DecidableEq

/-- `getDangerLevelText` (lines 206–217). -/
def getDangerLevelText (rating : Int) : String :=
  if rating = -2 then "Insufficient Snow"
  else if rating = 0 then "No Rating"
  else if rating = 1 then "Low (1)"
  else if rating = 2 then "Moderate (2)"
  else if rating = 3 then "Considerable (3)"
  else if rating = 4 then "High (4)"
  else if rating = 5 then "Extreme (5)"
  else "Level " ++ toString rating

/-- One step of the max-rating scan (lines 163–168): take an altitude
band's rating when it beats the running maximum and is positive. -/
def scanStep (acc : Int × String) (altitude : AltitudeDanger) : Int × String :=
  if altitude.rating > acc.1 && altitude.rating > 0 then
    (altitude.rating, altitude.description)
  else acc

/-- Lines 159–198 of `getForecastData`, applied to the selected (first
matching) forecast entry: the max-rating scan, the insufficient-snow
fallback, expiry arithmetic, and the description preference. -/
def normalizeForecast (regionId : Int) (forecast : RawForecast) : AvalancheData :=
  let scanned :=
    if forecast.altitudeDanger.length > 0 then
      forecast.altitudeDanger.foldl scanStep (0, "No rating available")
    else (0, "No rating available")
  let afterSnow :=
    if scanned.1 = 0 then
      match forecast.altitudeDanger.find? (fun a => a.rating == -2) with
      | some insufficientSnow => ((0 : Int), insufficientSnow.description)
      | none => scanned
    else scanned
  let maxRating := afterSnow.1
  let ratingDescription := afterSnow.2
  let validHours : Int := if forecast.validPeriod == "48hrs" then 48 else 24
  let expiresMs := forecast.createdMs + validHours * 60 * 60 * 1000
  let description :=
    if forecast.importantInformation ≠ "" then
      jsTrim (stripTags forecast.importantInformation)
    else ratingDescription
  { location := "Region " ++ toString regionId
    level := max 0 maxRating
    levelText := getDangerLevelText maxRating
    description := description
    startMs := forecast.createdMs
    expiresMs := expiresMs
    url := "https://www.avalanche.net.nz/region/" ++ toString regionId }

/-- The pure body of `getForecastData` (lines 143–198), applied to the
decoded forecast list: the empty-list and no-matching-region guards,
first-match selection, then `normalizeForecast`. -/
def getForecastData (regionId : Int) (forecasts : List RawForecast) :
    Option AvalancheData :=
  if forecasts.isEmpty then none
  else
    match forecasts.filter (fun f => f.regionId == regionId) with
    | [] => none
    | forecast :: _ => some (normalizeForecast regionId forecast)

/-! ## Feature assembly and the control loop (`control`, lines 249–358) -/

/-- Region metadata from `GET /api/region/{id}`. `geometry` holds the
`JSON.parse` result of the opaque geometry string (`none` when the parse
throws — the catch at line 278 leaves the polygon absent either way). -/
structure RegionInfo where
  id : Int
  title : String
  latitude : Rat
  longitude : Rat
  geometry : Option Json

/-- One entry of the `links` property (lines 297–303). -/
structure Link where
  uid : String
  relation : String
  mime : String
  url : String
  remarks : String
deriving DecidableEq

/-- Feature properties: the shared base block plus the variant-specific
styling fields (absent fields are `none`). -/
structure Props where
  callsign : String
  ctype : String
  time : Int
  start : Int
  stale : Option Int
  remarks : String
  links : List Link
  stroke : Option String
  strokeOpacity : Option Rat
  strokeWidth : Option Rat
  strokeStyle : Option String
  fillOpacity : Option Rat
  fill : Option String
  icon : Option String
deriving DecidableEq

/-- A feature geometry: the point carries the two-element position array
built at line 337; the polygon carries the coordinates document extracted
from the region geometry. -/
inductive FeatGeometry where
  | point (coordinates : List Rat) : FeatGeometry
  | polygon (coordinates : Json) : FeatGeometry

/-- A GeoJSON feature as assembled by `control`. -/
structure Feature where
  id : String
  ftype : String
  properties : Props
  geometry : FeatGeometry

/-- The submitted collection. -/
structure FeatureCollection where
  fctype : String
  features : List Feature

/-- `parseDate` applied to a timestamp that `new Date` already parses
(both `data.start` and `data.expires` are such whenever `getForecastData`
returned data): it re-renders the same instant, i.e. the identity on the
millisecond value. -/
def parseDateMs (t : Int) : Int := t

/-- Whether a feature's geometry is a point. -/
def isPointFeature (f : Feature) : Bool :=
  match f.geometry with
  | .point _ => true
  | .polygon _ => false

/-- Whether a feature's geometry is a polygon. -/
def isPolygonFeature (f : Feature) : Bool :=
  match f.geometry with
  | .point _ => false
  | .polygon _ => true

/-- One iteration of the region loop (lines 256–342): skip when either
fetch produced no data; otherwise assemble the polygon feature (when
geometry extraction succeeded) followed by the centre point feature.
`data.expires` is a `toISOString` result, hence a non-empty (truthy)
string, so the `stale` property and the `Valid Until` remark line are
always present. -/
def processRegion (regionId : Int) (info : Option RegionInfo)
    (data : Option AvalancheData) : List Feature :=
  match info, data with
  | some regionInfo, some d =>
    let startTime := parseDateMs d.startMs
    let expiresTime : Option Int := some (parseDateMs d.expiresMs)
    let polygonCoordinates := extractPolygon regionInfo.geometry
    let color := colorLookup d.level
    let callsign := "Avalanche Risk: " ++ regionInfo.title ++ " - " ++ d.levelText
    let remarks := String.intercalate "\n"
      [callsign,
       "Location: " ++ regionInfo.title,
       "Danger Level: " ++ d.levelText,
       "Description: " ++ d.description,
       "Issued: " ++ toString d.startMs,
       "Valid Until: " ++ toString d.expiresMs]
    let links : List Link :=
      [{ uid := "avalanche-" ++ toString regionId
         relation := "r-u"
         mime := "text/html"
         url := d.url
         remarks := "Avalanche Forecast Details" }]
    let polygonFeatures : List Feature :=
      match polygonCoordinates with
      | some coords =>
        [{ id := "avalanche-" ++ toString regionId
           ftype := "Feature"
           properties :=
             { callsign := callsign, ctype := "a-o-X-i-g-h"
               time := startTime, start := startTime, stale := expiresTime
               remarks := remarks, links := links
               stroke := color, strokeOpacity := some 0.4
               strokeWidth := some 2, strokeStyle := some "solid"
               fillOpacity := some 0.4, fill := color, icon := none }
           geometry := .polygon coords }]
      | none => []
    let pointFeature : Feature :=
      { id := "avalanche-" ++ toString regionId ++ "-center"
        ftype := "Feature"
        properties :=
          { callsign := callsign, ctype := "a-o-X-i-g-h"
            time := startTime, start := startTime, stale := expiresTime
            remarks := remarks, links := links
            stroke := none, strokeOpacity := none
            strokeWidth := none, strokeStyle := none
            fillOpacity := none, fill := none
            icon := iconLookup d.level }
        geometry := .point [regionInfo.latitude, regionInfo.longitude] }
    polygonFeatures ++ [pointFeature]
  | _, _ => []

/-- The features accumulated by the loop over `VALID_REGIONS`, with the
two fetches modelled as functions of the region id: `regionInfoF` is
`getRegionInfo` and the forecast data comes from `getForecastData`
applied to the globally fetched forecast list. -/
def controlFeatures (regionInfoF : Int → Option RegionInfo)
    (forecasts : List RawForecast) : List Feature :=
  VALID_REGIONS.flatMap
    (fun regionId =>
      processRegion regionId (regionInfoF regionId) (getForecastData regionId forecasts))

/-- The collection built at lines 344–347. -/
def controlCollection (regionInfoF : Int → Option RegionInfo)
    (forecasts : List RawForecast) : FeatureCollection :=
  { fctype := "FeatureCollection", features := controlFeatures regionInfoF forecasts }

/-- The sequence of `submit` calls a run performs (line 351 runs exactly
once, after the loop, whatever the collection contains). -/
def controlSubmissions (regionInfoF : Int → Option RegionInfo)
    (forecasts : List RawForecast) : List FeatureCollection :=
  [controlCollection regionInfoF forecasts]

/-! ## The spec's danger-level mapping, stated in its own words -/

/-- The mapping as the specification words it: -2 ↦ Insufficient Snow,
0 ↦ No Rating, 1–5 ↦ the named levels, any other integer N ↦ "Level N". -/
def dangerLevelTextSpec (rating : Int) : String :=
  if rating = -2 then "Insufficient Snow"
  else if rating = 0 then "No Rating"
  else if rating = 1 then "Low (1)"
  else if rating = 2 then "Moderate (2)"
  else if rating = 3 then "Considerable (3)"
  else if rating = 4 then "High (4)"
  else if rating = 5 then "Extreme (5)"
  else "Level " ++ toString rating

/-! ## Helper lemmas -/

/-- Skipped region: no forecast data yields no features. -/
lemma processRegion_data_none (regionId : Int) (info : Option RegionInfo) :
    processRegion regionId info none = [] := by
  cases info <;> rfl

/-- Skipped region: no region info yields no features. -/
lemma processRegion_info_none (regionId : Int) (data : Option AvalancheData) :
    processRegion regionId none data = [] := by
  cases data <;> rfl

/-- When the region filter selects a first entry, `getForecastData`
normalizes exactly that entry. -/
lemma getForecastData_of_filter_cons (regionId : Int) (forecasts : List RawForecast)
    (f : RawForecast) (t : List RawForecast)
    (h : forecasts.filter (fun g => g.regionId == regionId) = f :: t) :
    getForecastData regionId forecasts = some (normalizeForecast regionId f) := by
  cases forecasts with
  | nil => simp at h
  | cons a l => simp [getForecastData, h]

/-- The max-rating scan leaves its accumulator unchanged on a list with
no strictly positive rating. -/
lemma foldl_scanStep_no_positive (l : List AltitudeDanger) (s : String)
    (h : ∀ a ∈ l, a.rating ≤ 0) :
    l.foldl scanStep (0, s) = (0, s) := by
  induction l with
  | nil => rfl
  | cons a t ih =>
    have ha : a.rating ≤ 0 := h a (List.mem_cons_self a t)
    have hstep : scanStep (0, s) a = (0, s) := by
      simp [scanStep]
      intro hgt
      omega
    rw [List.foldl_cons, hstep]
    exact ih (fun b hb => h b (List.mem_cons_of_mem a hb))

/-- Inside an open tag that the checker accepts, a closing `>` exists. -/
lemma tagsWsAux_true_contains (l : List Char) (h : tagsWsAux true l = true) :
    l.contains '>' = true := by
  induction l with
  | nil => simp [tagsWsAux] at h
  | cons c cs ih =>
    by_cases hc : c = '>'
    · subst hc; simp [List.contains_cons]
    · rw [tagsWsAux] at h
      rw [if_neg hc] at h
      have hm : ('>' : Char) ∈ cs := by simpa using ih h
      simp [List.contains_cons, hm]

/-- Stripping a tags-and-whitespace text leaves only whitespace, in
either scanner state. -/
lemma stripTagsAux_all_ws (l : List Char) :
    (tagsWsAux false l = true → ∀ c ∈ stripTagsAux false l, isJsWs c = true) ∧
    (tagsWsAux true l = true → ∀ c ∈ stripTagsAux true l, isJsWs c = true) := by
  induction l with
  | nil =>
    constructor
    · intro _ c hc; simp [stripTagsAux] at hc
    · intro _ c hc; simp [stripTagsAux] at hc
  | cons a cs ih =>
    constructor
    · intro h c hc
      by_cases hws : isJsWs a
      · have hne : a ≠ '<' := by
          intro he; rw [he] at hws; simp [isJsWs] at hws
        rw [tagsWsAux, if_pos hws] at h
        rw [stripTagsAux, if_neg hne] at hc
        rcases List.mem_cons.1 hc with rfl | hmem
        · exact hws
        · exact ih.1 h c hmem
      · rw [tagsWsAux, if_neg hws] at h
        by_cases hlt : a = '<'
        · rw [if_pos hlt] at h
          have hcont : cs.contains '>' = true := tagsWsAux_true_contains cs h
          rw [stripTagsAux, if_pos hlt, if_pos hcont] at hc
          exact ih.2 h c hc
        · rw [if_neg hlt] at h; exact absurd h (by simp)
    · intro h c hc
      by_cases hgt : a = '>'
      · rw [tagsWsAux, if_pos hgt] at h
        rw [stripTagsAux, if_pos hgt] at hc
        exact ih.1 h c hc
      · rw [tagsWsAux, if_neg hgt] at h
        rw [stripTagsAux, if_neg hgt] at hc
        exact ih.2 h c hc

/-- Trimming an all-whitespace string yields the empty string. -/
lemma jsTrim_all_ws (l : List Char) (h : ∀ c ∈ l, isJsWs c = true) :
    jsTrim (String.mk l) = "" := by
  unfold jsTrim
  have hdrop : l.dropWhile isJsWs = [] := List.dropWhile_eq_nil_iff.2 h
  simp [hdrop]

/-- The `importantInformation` cleanup erases a text made only of markup
tags and whitespace. -/
lemma cleanup_tagsWsOnly (s : String) (h : tagsWsOnly s = true) :
    jsTrim (stripTags s) = "" := by
  unfold stripTags
  exact jsTrim_all_ws _ ((stripTagsAux_all_ws s.data).1 h)

/-- Every entry of the color table is a non-empty (truthy) string. -/
lemma avalancheColors_some_ne_empty (level : Int) (c : String)
    (h : avalancheColors level = some c) : c ≠ "" := by
  unfold avalancheColors at h
  split_ifs at h <;> (cases h; decide)

/-- Every entry of the icon table is a non-empty (truthy) string. -/
lemma avalancheIcons_some_ne_empty (level : Int) (c : String)
    (h : avalancheIcons level = some c) : c ≠ "" := by
  unfold avalancheIcons at h
  split_ifs at h <;> (cases h; decide)

/-! ## Claims -/

/-- C1: the danger-level text mapping is a total function on the
integers, with -2 ↦ "Insufficient Snow", 0 ↦ "No Rating",
1 ↦ "Low (1)", 2 ↦ "Moderate (2)", 3 ↦ "Considerable (3)",
4 ↦ "High (4)", 5 ↦ "Extreme (5)", and every other integer N ↦
"Level N"; being a Lean function, it fails on no input. -/
theorem claim_C1 : ∀ rating : Int, getDangerLevelText rating = dangerLevelTextSpec rating :=
  fun _ => rfl

/-- C2: for every forecast entry selected for a region (the first match,
with a parseable created timestamp, as carried by `createdMs`), the
computed expiry is created + 48 hours when `validPeriod = "48hrs"` and
created + 24 hours for every other `validPeriod`, exact to the
millisecond. -/
theorem claim_C2 (regionId : Int) (forecasts : List RawForecast) (f : RawForecast)
    (d : AvalancheData)
    (hf : (forecasts.filter (fun g => g.regionId == regionId)).head? = some f)
    (hd : getForecastData regionId forecasts = some d) :
    (f.validPeriod = "48hrs" → d.expiresMs = f.createdMs + 48 * 60 * 60 * 1000) ∧
    (f.validPeriod ≠ "48hrs" → d.expiresMs = f.createdMs + 24 * 60 * 60 * 1000) := by
  obtain ⟨t, hfil⟩ : ∃ t, forecasts.filter (fun g => g.regionId == regionId) = f :: t := by
    cases hh : forecasts.filter (fun g => g.regionId == regionId) with
    | nil => rw [hh] at hf; simp at hf
    | cons x xs =>
      rw [hh, List.head?_cons] at hf
      exact ⟨xs, by rw [Option.some.inj hf]⟩
  rw [getForecastData_of_filter_cons regionId forecasts f t hfil] at hd
  rw [← Option.some.inj hd]
  constructor
  · intro h48
    simp [normalizeForecast, h48]
  · intro h24
    simp [normalizeForecast, beq_iff_eq, h24]

/-- Witness for C2 at a concrete 48-hour forecast. -/
theorem claim_C2_witness :
    (getForecastData 1 [⟨1, [], 0, "48hrs", ""⟩]).map (fun d => d.expiresMs) =
      some ((0 : Int) + 48 * 60 * 60 * 1000) := by
  have h := claim_C2 1 [⟨1, [], 0, "48hrs", ""⟩] ⟨1, [], 0, "48hrs", ""⟩
    (normalizeForecast 1 ⟨1, [], 0, "48hrs", ""⟩) (by rfl) (by rfl)
  have h48 := h.1 rfl
  rw [show getForecastData 1 [⟨1, [], 0, "48hrs", ""⟩] =
    some (normalizeForecast 1 ⟨1, [], 0, "48hrs", ""⟩) from rfl]
  simpa using h48

/-- C3: forecast normalization for a region returns the no-data signal
`none` — it is a total Lean function, so no exception — exactly when the
forecast list is empty or contains no entry whose `regionId` equals the
target region; with at least one matching entry it returns a normalized
record. -/
theorem claim_C3 (regionId : Int) (forecasts : List RawForecast) :
    (getForecastData regionId forecasts = none ↔
      forecasts = [] ∨ forecasts.filter (fun f => f.regionId == regionId) = []) ∧
    (forecasts.filter (fun f => f.regionId == regionId) ≠ [] →
      ∃ d, getForecastData regionId forecasts = some d) := by
  constructor
  · cases forecasts with
    | nil => simp [getForecastData]
    | cons a l =>
      cases hh : (a :: l).filter (fun f => f.regionId == regionId) with
      | nil => simp [getForecastData, hh]
      | cons x xs => simp [getForecastData, hh]
  · intro hne
    cases hh : forecasts.filter (fun f => f.regionId == regionId) with
    | nil => exact absurd hh hne
    | cons x xs =>
      exact ⟨normalizeForecast regionId x, getForecastData_of_filter_cons regionId forecasts x xs hh⟩

/-- Witness for C3: a payload with one matching entry yields data. -/
theorem claim_C3_witness :
    (getForecastData 1 [⟨1, [], 0, "24hrs", ""⟩]).isSome = true := by
  obtain ⟨d, hd⟩ := (claim_C3 1 [⟨1, [], 0, "24hrs", ""⟩]).2 (by decide)
  rw [hd]; rfl

/-- C4: for a geometry payload that fails to parse, lacks `layers`, has a
`layers[0].geometry` type other than exactly "Polygon", lacks a
`coordinates` field, or is an empty array, extraction returns no
geometry (it is a total Lean function, so no error), and the region
still emits exactly its single Point feature. -/
theorem claim_C4 (g : Option Json)
    (h : g = none ∨
      g = some (Json.arr []) ∨
      (∀ j, g = some j → getField j "layers" = none) ∨
      (∃ j geom, g = some j ∧ navGeom j = some geom ∧
        tyIsPolygon (getField geom "type") = false) ∨
      (∃ j geom, g = some j ∧ navGeom j = some geom ∧
        getField geom "coordinates" = none)) :
    extractPolygon g = none ∧
    ∀ (regionId : Int) (ri : RegionInfo) (d : AvalancheData), ri.geometry = g →
      (processRegion regionId (some ri) (some d)).countP isPointFeature = 1 ∧
      (processRegion regionId (some ri) (some d)).length = 1 := by
  have hext : extractPolygon g = none := by
    rcases h with rfl | rfl | hl | ⟨j, geom, rfl, hnav, hty⟩ | ⟨j, geom, rfl, hnav, hco⟩
    · rfl
    · rfl
    · cases g with
      | none => rfl
      | some j => simp [extractPolygon, hl j rfl, truthyOpt]
    · unfold navGeom at hnav
      simp only [extractPolygon]
      rw [hnav]
      simp [optField, hty]
    · unfold navGeom at hnav
      simp only [extractPolygon]
      rw [hnav]
      simp [optField, hco, truthyOpt]
  refine ⟨hext, ?_⟩
  intro regionId ri d hri
  have hpc : extractPolygon ri.geometry = none := by rw [hri]; exact hext
  constructor <;>
    simp [processRegion, hpc, isPointFeature, List.countP_cons, List.countP_nil]

/-- Witness for C4 at an unparseable geometry string. -/
theorem claim_C4_witness :
    extractPolygon none = none ∧
    (processRegion 1 (some ⟨1, "Aoraki", 0, 0, none⟩)
      (some ⟨"Region 1", 0, "No Rating", "", 0, 0, ""⟩)).countP isPointFeature = 1 := by
  have h := claim_C4 none (Or.inl rfl)
  exact ⟨h.1, (h.2 1 ⟨1, "Aoraki", 0, 0, none⟩ ⟨"Region 1", 0, "No Rating", "", 0, 0, ""⟩ rfl).1⟩

/-- C5: when the selected forecast has no altitude entry rated above 0,
an entry rated exactly -2 makes the normalized result carry level 0,
level text "No Rating" and (for an empty `importantInformation`) that
entry's description; with no -2 entry either, the description is the
placeholder "No rating available". -/
theorem claim_C5 (regionId : Int) (forecasts : List RawForecast) (f : RawForecast)
    (hf : (forecasts.filter (fun g => g.regionId == regionId)).head? = some f)
    (hpos : ∀ a ∈ f.altitudeDanger, a.rating ≤ 0) :
    (∀ e, f.altitudeDanger.find? (fun a => a.rating == -2) = some e →
      ∃ d, getForecastData regionId forecasts = some d ∧ d.level = 0 ∧
        d.levelText = "No Rating" ∧
        (f.importantInformation = "" → d.description = e.description)) ∧
    (f.altitudeDanger.find? (fun a => a.rating == -2) = none →
      f.importantInformation = "" →
      ∃ d, getForecastData regionId forecasts = some d ∧
        d.description = "No rating available") := by
  obtain ⟨t, hfil⟩ : ∃ t, forecasts.filter (fun g => g.regionId == regionId) = f :: t := by
    cases hh : forecasts.filter (fun g => g.regionId == regionId) with
    | nil => rw [hh] at hf; simp at hf
    | cons x xs =>
      rw [hh, List.head?_cons] at hf
      exact ⟨xs, by rw [Option.some.inj hf]⟩
  have hget := getForecastData_of_filter_cons regionId forecasts f t hfil
  have hscan : (if f.altitudeDanger.length > 0 then
      f.altitudeDanger.foldl scanStep (0, "No rating available")
    else ((0 : Int), "No rating available")) = (0, "No rating available") := by
    split_ifs
    · exact foldl_scanStep_no_positive f.altitudeDanger _ hpos
    · rfl
  constructor
  · intro e he
    refine ⟨normalizeForecast regionId f, hget, ?_, ?_, ?_⟩
    · simp [normalizeForecast, hscan, he]
    · simp [normalizeForecast, hscan, he, getDangerLevelText]
    · intro himp
      simp [normalizeForecast, hscan, he, himp]
  · intro hnone himp
    refine ⟨normalizeForecast regionId f, hget, ?_⟩
    simp [normalizeForecast, hscan, hnone, himp]

/-- Witness for C5 at a forecast with a single -2-rated band. -/
theorem claim_C5_witness :
    (getForecastData 1 [⟨1, [⟨-2, "Insufficient Snow data"⟩], 0, "24hrs", ""⟩]).map
      (fun d => (d.level, d.levelText, d.description)) =
      some (0, "No Rating", "Insufficient Snow data") := by
  obtain ⟨d, hd, hl, hlt, hdesc⟩ :=
    (claim_C5 1 [⟨1, [⟨-2, "Insufficient Snow data"⟩], 0, "24hrs", ""⟩]
      ⟨1, [⟨-2, "Insufficient Snow data"⟩], 0, "24hrs", ""⟩ (by rfl) (by decide)).1
      ⟨-2, "Insufficient Snow data"⟩ (by rfl)
  rw [hd]
  simp [hl, hlt, hdesc rfl]

/-- C6: when both region info and forecast resolve, a region emits
exactly one Point feature with id `avalanche-<regionId>-center`, exactly
one Polygon feature with id `avalanche-<regionId>` if polygon geometry
was extracted and none otherwise, and nothing else. -/
theorem claim_C6 (regionId : Int) (ri : RegionInfo) (d : AvalancheData) :
    (processRegion regionId (some ri) (some d)).countP
        (fun f => isPointFeature f &&
          (f.id == "avalanche-" ++ toString regionId ++ "-center")) = 1 ∧
    ((extractPolygon ri.geometry).isSome →
      (processRegion regionId (some ri) (some d)).countP
        (fun f => isPolygonFeature f && (f.id == "avalanche-" ++ toString regionId)) = 1) ∧
    (extractPolygon ri.geometry = none →
      (processRegion regionId (some ri) (some d)).countP isPolygonFeature = 0) ∧
    (processRegion regionId (some ri) (some d)).length =
      (if (extractPolygon ri.geometry).isSome then 2 else 1) ∧
    (∀ f ∈ processRegion regionId (some ri) (some d),
      (isPointFeature f = true ∧ f.id = "avalanche-" ++ toString regionId ++ "-center") ∨
      (isPolygonFeature f = true ∧ f.id = "avalanche-" ++ toString regionId)) := by
  cases hpc : extractPolygon ri.geometry with
  | none =>
    refine ⟨?_, ?_, ?_, ?_, ?_⟩ <;>
      simp [processRegion, hpc, isPointFeature, isPolygonFeature,
        List.countP_cons, List.countP_nil]
  | some coords =>
    refine ⟨?_, ?_, ?_, ?_, ?_⟩ <;>
      simp [processRegion, hpc, isPointFeature, isPolygonFeature,
        List.countP_cons, List.countP_nil]

/-- Witness for C6 at a region with well-formed polygon geometry. -/
theorem claim_C6_witness :
    (extractPolygon (some (Json.obj [("layers", Json.arr [Json.obj [("geometry",
      Json.obj [("type", Json.str "Polygon"), ("coordinates", Json.arr [Json.num 1])])]])]))).isSome = true ∧
    (processRegion 1 (some ⟨1, "Aoraki", 0, 0, some (Json.obj [("layers", Json.arr [Json.obj [("geometry",
      Json.obj [("type", Json.str "Polygon"), ("coordinates", Json.arr [Json.num 1])])]])])⟩)
      (some ⟨"Region 1", 3, "Considerable (3)", "", 0, 0, ""⟩)).countP
        (fun f => isPolygonFeature f && (f.id == "avalanche-" ++ toString (1 : Int))) = 1 := by
  refine ⟨rfl, ?_⟩
  exact (claim_C6 1 ⟨1, "Aoraki", 0, 0, some (Json.obj [("layers", Json.arr [Json.obj [("geometry",
    Json.obj [("type", Json.str "Polygon"), ("coordinates", Json.arr [Json.num 1])])]])])⟩
    ⟨"Region 1", 3, "Considerable (3)", "", 0, 0, ""⟩).2.1 rfl

/-- C7: every Point feature the control loop emits carries the producing
region's stored coordinate pair in the order latitude first, longitude
second, exactly as stored. -/
theorem claim_C7 (regionInfoF : Int → Option RegionInfo) (forecasts : List RawForecast)
    (f : Feature) (hf : f ∈ controlFeatures regionInfoF forecasts)
    (hp : isPointFeature f = true) :
    ∃ regionId ri, regionId ∈ VALID_REGIONS ∧ regionInfoF regionId = some ri ∧
      f.geometry = FeatGeometry.point [ri.latitude, ri.longitude] := by
  unfold controlFeatures at hf
  rw [List.mem_flatMap] at hf
  obtain ⟨regionId, hrid, hmem⟩ := hf
  cases hri : regionInfoF regionId with
  | none =>
    rw [hri, processRegion_info_none] at hmem
    simp at hmem
  | some ri =>
    cases hd : getForecastData regionId forecasts with
    | none =>
      rw [hri, hd, processRegion_data_none] at hmem
      simp at hmem
    | some d =>
      rw [hri, hd] at hmem
      refine ⟨regionId, ri, hrid, hri, ?_⟩
      cases hpc : extractPolygon ri.geometry with
      | none =>
        simp [processRegion, hpc] at hmem
        rw [hmem]
      | some coords =>
        simp [processRegion, hpc] at hmem
        rcases hmem with rfl | rfl
        · simp [isPointFeature] at hp
        · rfl

/-- Concrete region used by the C7 witness. -/
def riW7 : RegionInfo := ⟨1, "Aoraki", 5, 6, none⟩

/-- Region-info fetcher used by the C7 witness. -/
def regionInfoFW7 : Int → Option RegionInfo := fun _ => some riW7

/-- Forecast list used by the C7 witness: only region 1 matches. -/
def forecastsW7 : List RawForecast := [⟨1, [], 0, "24hrs", ""⟩]

/-- The single feature the C7 witness run emits. -/
def pointFW7 : Feature :=
  (controlFeatures regionInfoFW7 forecastsW7).headD
    ⟨"", "", ⟨"", "", 0, 0, none, "", [], none, none, none, none, none, none, none⟩,
      FeatGeometry.point []⟩

/-- Witness for C7: the emitted point carries latitude 5 then longitude 6. -/
theorem claim_C7_witness : pointFW7.geometry = FeatGeometry.point [5, 6] := by
  obtain ⟨regionId, ri, hmem, hri, hgeo⟩ := claim_C7 regionInfoFW7 forecastsW7 pointFW7
    (by
      rw [show controlFeatures regionInfoFW7 forecastsW7 = [pointFW7] from rfl]
      exact List.mem_singleton_self pointFW7)
    rfl
  have hr : ri = riW7 := by
    have h := hri
    simp [regionInfoFW7] at h
    exact h.symm
  rw [hgeo, hr]
  rfl

/-- C8: for every integer level, the color and icon lookup expressions
are defined: they return the table entry when one exists and the level-0
entry for any level not present in the table. -/
theorem claim_C8 (level : Int) :
    (colorLookup level).isSome = true ∧ (iconLookup level).isSome = true ∧
    (∀ c, avalancheColors level = some c → colorLookup level = some c) ∧
    (∀ c, avalancheIcons level = some c → iconLookup level = some c) ∧
    (avalancheColors level = none → colorLookup level = avalancheColors 0) ∧
    (avalancheIcons level = none → iconLookup level = avalancheIcons 0) := by
  refine ⟨?_, ?_, ?_, ?_, ?_, ?_⟩
  · cases hc : avalancheColors level with
    | none =>
      simp only [colorLookup, hc]
      rfl
    | some c =>
      simp [colorLookup, jsOrString, hc, avalancheColors_some_ne_empty level c hc]
  · cases hc : avalancheIcons level with
    | none =>
      simp only [iconLookup, hc]
      rfl
    | some c =>
      simp [iconLookup, jsOrString, hc, avalancheIcons_some_ne_empty level c hc]
  · intro c hc
    simp [colorLookup, jsOrString, hc, avalancheColors_some_ne_empty level c hc]
  · intro c hc
    simp [iconLookup, jsOrString, hc, avalancheIcons_some_ne_empty level c hc]
  · intro hc
    simp [colorLookup, jsOrString, hc]
  · intro hc
    simp [iconLookup, jsOrString, hc]

/-- Witness for C8 at a mapped and an unmapped level. -/
theorem claim_C8_witness :
    colorLookup 3 = some "rgb(248, 151, 44)" ∧
    colorLookup 9 = avalancheColors 0 ∧
    iconLookup 9 = avalancheIcons 0 := by
  refine ⟨(claim_C8 3).2.2.1 "rgb(248, 151, 44)" rfl, ?_, ?_⟩
  · exact (claim_C8 9).2.2.2.2.1 rfl
  · exact (claim_C8 9).2.2.2.2.2 rfl

/-- C9: a region whose info or forecast is missing contributes zero
features while the loop structure continues over the rest of the fixed
catalog, and the accumulated collection is submitted exactly once, also
when the global forecast list is empty and the collection has zero
features. -/
theorem claim_C9 (regionInfoF : Int → Option RegionInfo) (forecasts : List RawForecast) :
    (∀ regionId, (regionInfoF regionId = none ∨ getForecastData regionId forecasts = none) →
      processRegion regionId (regionInfoF regionId) (getForecastData regionId forecasts) = []) ∧
    controlSubmissions regionInfoF forecasts = [controlCollection regionInfoF forecasts] ∧
    (controlSubmissions regionInfoF forecasts).length = 1 ∧
    (forecasts = [] → (controlCollection regionInfoF forecasts).features = []) := by
  refine ⟨?_, rfl, rfl, ?_⟩
  · intro regionId hcase
    rcases hcase with hnone | hnone
    · rw [hnone]
      exact processRegion_info_none regionId _
    · rw [hnone]
      exact processRegion_data_none regionId _
  · intro hempty
    subst hempty
    have hdata : ∀ regionId : Int, getForecastData regionId ([] : List RawForecast) = none :=
      fun _ => rfl
    simp [controlCollection, controlFeatures, VALID_REGIONS, hdata, processRegion_data_none]

/-- Witness for C9: no data at all still submits one empty collection. -/
theorem claim_C9_witness :
    (controlCollection (fun _ => none) []).features = [] ∧
    (controlSubmissions (fun _ => none) []).length = 1 := by
  have h := claim_C9 (fun _ => none) []
  exact ⟨h.2.2.2 rfl, h.2.2.1⟩

/-- C10: a forecast whose `importantInformation` is non-empty but made
only of markup tags and whitespace normalizes to the empty description:
the non-emptiness check precedes stripping and trimming, so the
altitude-band fallback is not consulted. -/
theorem claim_C10 (regionId : Int) (forecasts : List RawForecast) (f : RawForecast)
    (hf : (forecasts.filter (fun g => g.regionId == regionId)).head? = some f)
    (hne : f.importantInformation ≠ "")
    (htags : tagsWsOnly f.importantInformation = true) :
    (getForecastData regionId forecasts).map (fun d => d.description) = some "" := by
  obtain ⟨t, hfil⟩ : ∃ t, forecasts.filter (fun g => g.regionId == regionId) = f :: t := by
    cases hh : forecasts.filter (fun g => g.regionId == regionId) with
    | nil => rw [hh] at hf; simp at hf
    | cons x xs =>
      rw [hh, List.head?_cons] at hf
      exact ⟨xs, by rw [Option.some.inj hf]⟩
  rw [getForecastData_of_filter_cons regionId forecasts f t hfil]
  simp [normalizeForecast, hne, cleanup_tagsWsOnly f.importantInformation htags]

/-- Witness for C10: tags-and-whitespace text beats the band fallback. -/
theorem claim_C10_witness :
    (getForecastData 1 [⟨1, [⟨0, "fallback"⟩], 0, "24hrs", "<b> </b>"⟩]).map
      (fun d => d.description) = some "" :=
  claim_C10 1 [⟨1, [⟨0, "fallback"⟩], 0, "24hrs", "<b> </b>"⟩]
    ⟨1, [⟨0, "fallback"⟩], 0, "24hrs", "<b> </b>"⟩ (by rfl) (by decide) (by decide)

end EtlAvalanche
